import Mathlib

/-!
# Verification of the AI Smart LED Controller training pipeline and serving layer

Shallow embedding of the two Python modules with decision logic:

* `train_model.py` — the offline training pipeline
  (load → clean → validate → outlier detection → split → fit → evaluate → persist);
* `app.py` — the Flask prediction service (`/status`, `/predict`).

Numeric telemetry values (Python floats after `pd.to_numeric` coercion) are
modelled as exact rationals `ℚ`; machine integers as `ℤ`/`ℕ`.  A pandas data
frame of the three retained columns is a `List Row`.  Fallible stages return
`Except ExitReason`, one constructor per `sys.exit(1)` site.  The scikit-learn
regressor is kept abstract: the pipeline is parameterised over the `fit`
function (and over the shuffling `split`), since no claim depends on the
learned function itself.
-/

namespace SmartLed

/-- A cleaned sample row: one record of the columns `ldr`, `motion`, `led`
after numeric coercion (`train_model.py`, section 3). -/
structure Row where
  ldr : ℚ
  motion : ℚ
  led : ℚ
deriving DecidableEq, Repr

/-- A raw CSV row, before `dropna`: each field either coerced to a numeric
value or missing / non-numeric (`pd.to_numeric(..., errors='coerce')` turns
failures into `NaN`, modelled as `none`). -/
structure RawRow where
  ldr : Option ℚ
  motion : Option ℚ
  led : Option ℚ
deriving DecidableEq, Repr

/-- The `sys.exit(1)` sites of `train_model.py`. -/
inductive ExitReason where
  | fileNotFound
  | missingColumns
  | insufficientSamples
  | saveFailed
deriving DecidableEq, Repr

/-! ## Section 1+3 of `train_model.py`: load and schema guard -/

/-- The three required columns (`required_cols = ['ldr', 'motion', 'led']`). -/
def requiredCols : List String := ["ldr", "motion", "led"]

/-- `train_model.py` lines 41–42: if a `ts` or `Unnamed: 0` column exists,
drop whichever of the two are present. -/
def dropTsCols (cols : List String) : List String :=
  if cols.contains "ts" || cols.contains "Unnamed: 0" then
    cols.filter (fun c => !(c == "ts" || c == "Unnamed: 0"))
  else cols

/-- `train_model.py` line 47: the required columns absent from the frame. -/
def missingCols (cols : List String) : List String :=
  requiredCols.filter (fun c => !cols.contains c)

/-- Sections 1 and 3 of `train_model.py`: reading the CSV exits with a
diagnostic when the file is absent (`FileNotFoundError` → `sys.exit(1)`),
then after dropping timestamp/index columns the schema guard exits when any
required column is missing.  On success it yields the column list. -/
def loadStage (fileExists : Bool) (cols : List String) :
    Except ExitReason (List String) :=
  if !fileExists then .error .fileNotFound
  else if missingCols (dropTsCols cols) ≠ [] then .error .missingColumns
  else .ok (dropTsCols cols)

/-! ## Section 3 of `train_model.py`: cleaning -/

/-- `df.dropna()` after numeric coercion: keep exactly the rows whose three
fields are all numeric. -/
def dropNaRows (raws : List RawRow) : List Row :=
  raws.filterMap fun r =>
    match r.ldr, r.motion, r.led with
    | some a, some b, some c => some ⟨a, b, c⟩
    | _, _, _ => none

/-- `df.drop_duplicates()`: keep the first occurrence of each row. -/
def dedupRows (rows : List Row) : List Row :=
  rows.foldl (fun acc r => if r ∈ acc then acc else acc ++ [r]) []

/-- The cleaning stage: coercion + `dropna` + duplicate removal. -/
def cleanRows (raws : List RawRow) : List Row :=
  dedupRows (dropNaRows raws)

/-! ## Section 4 of `train_model.py`: validation -/

/-- `train_model.py` lines 87–89: the three successive boolean-mask filters
    `df = df[(df['ldr'] >= 0) & (df['ldr'] <= 4095)]`
    `df = df[(df['motion'].isin([0, 1]))]`
    `df = df[(df['led'] >= 0) & (df['led'] <= 255)]`. -/
def validateRows (df : List Row) : List Row :=
  ((df.filter (fun r => decide (0 ≤ r.ldr ∧ r.ldr ≤ 4095))).filter
      (fun r => decide (r.motion = 0 ∨ r.motion = 1))).filter
    (fun r => decide (0 ≤ r.led ∧ r.led ≤ 255))

/-- The conjunction of the three per-row range/set constraints. -/
def RowValid (r : Row) : Prop :=
  (0 ≤ r.ldr ∧ r.ldr ≤ 4095) ∧ (r.motion = 0 ∨ r.motion = 1) ∧
    (0 ≤ r.led ∧ r.led ≤ 255)

instance : DecidablePred RowValid := fun r => by
  unfold RowValid; infer_instance

/-! ## Clamping, as used by the evaluation stage and the service -/

/-- `np.clip(x, 0, 255)` on a scalar (`train_model.py` lines 148–149). -/
def clip255 (q : ℚ) : ℚ := max 0 (min 255 q)

/-- `max(0, min(255, n))` on an integer (`app.py` line 69). -/
def clampInt (n : ℤ) : ℤ := max 0 (min 255 n)

/-- Python `int()` on a float: truncation toward zero. -/
def pyInt (q : ℚ) : ℤ := if 0 ≤ q then ⌊q⌋ else ⌈q⌉

/-! ## Section 5 of `train_model.py`: outlier detection -/

/-- `Series.quantile` with the default linear interpolation, on an already
sorted list: position `h = q·(n−1)`, value `x⌊h⌋ + (h−⌊h⌋)·(x⌊h⌋₊₁ − x⌊h⌋)`. -/
def quantileSorted (xs : List ℚ) (q : ℚ) : ℚ :=
  match xs with
  | [] => 0
  | _ :: _ =>
    let h : ℚ := q * (xs.length - 1)
    let i : ℕ := (⌊h⌋).toNat
    let lo := xs.getD i 0
    let hi := xs.getD (i + 1) lo
    lo + (h - ⌊h⌋) * (hi - lo)

/-- Insert a value into an already sorted list of rationals. -/
def insertSorted (x : ℚ) : List ℚ → List ℚ
  | [] => [x]
  | y :: ys => if x ≤ y then x :: y :: ys else y :: insertSorted x ys

/-- Sort a list of rationals into ascending order (insertion sort; the
quantile only depends on the sorted sequence of values). -/
def sortRats (xs : List ℚ) : List ℚ := xs.foldr insertSorted []

/-- `df['led'].quantile(q)`: the `q`-quantile of the `led` column. -/
def ledQuantile (df : List Row) (q : ℚ) : ℚ :=
  quantileSorted (sortRats (df.map Row.led)) q

/-- `low = Q1 - 1.5 * IQR` (`train_model.py` line 105). -/
def ledLow (df : List Row) : ℚ :=
  ledQuantile df (1/4) - 3/2 * (ledQuantile df (3/4) - ledQuantile df (1/4))

/-- `high = Q3 + 1.5 * IQR` (`train_model.py` line 105). -/
def ledHigh (df : List Row) : ℚ :=
  ledQuantile df (3/4) + 3/2 * (ledQuantile df (3/4) - ledQuantile df (1/4))

/-- `outliers = df[(df['led'] < low) | (df['led'] > high)]` (line 107). -/
def ledOutliers (df : List Row) : List Row :=
  df.filter (fun r => decide (r.led < ledLow df ∨ ledHigh df < r.led))

/-- `train_model.py` lines 103–112: remove the rows with `led` strictly
outside `[low, high]` exactly when some exist and they number fewer than
`len(df) * 0.1`; otherwise leave the frame untouched. -/
def outlierStage (df : List Row) : List Row :=
  if 0 < (ledOutliers df).length ∧
      ((ledOutliers df).length : ℚ) < (df.length : ℚ) * (1/10) then
    df.filter (fun r => decide (ledLow df ≤ r.led ∧ r.led ≤ ledHigh df))
  else df

/-! ## Sections 7–10 of `train_model.py`: split, fit, evaluation, save -/

/-- The learned regressor, abstractly: a total map (ldr, motion) ↦ raw
prediction.  `train_model.py` never lets the regressor's internals influence
control flow, so the pipeline is parameterised over the fitting procedure. -/
def RegModel : Type := ℚ → ℚ → ℚ

/-- `mean_absolute_error` on paired labels/predictions. -/
def meanAbsoluteError (ys preds : List ℚ) : ℚ :=
  (((ys.zip preds).map fun p => |p.1 - p.2|).sum) / (ys.length : ℚ)

/-- `r2_score`: `1 − Σ(y−ŷ)² / Σ(y−ȳ)²` (with `ℚ`'s total division). -/
def r2Score (ys preds : List ℚ) : ℚ :=
  let mean := ys.sum / (ys.length : ℚ)
  1 - (((ys.zip preds).map fun p => (p.1 - p.2) ^ 2).sum) /
      ((ys.map fun y => (y - mean) ^ 2).sum)

/-- The evaluation numbers printed by section 9 of `train_model.py`. -/
structure Metrics where
  trainMAE : ℚ
  testMAE : ℚ
  trainR2 : ℚ
  testR2 : ℚ
deriving Repr

/-- Section 9: predictions on a split, clamped to `[0, 255]` by `np.clip`
before scoring. -/
def clippedPreds (m : RegModel) (rows : List Row) : List ℚ :=
  rows.map fun r => clip255 (m r.ldr r.motion)

/-- The four scores of section 9, from the clamped predictions. -/
def evalMetrics (m : RegModel) (train test : List Row) : Metrics :=
  { trainMAE := meanAbsoluteError (train.map Row.led) (clippedPreds m train)
    testMAE := meanAbsoluteError (test.map Row.led) (clippedPreds m test)
    trainR2 := r2Score (train.map Row.led) (clippedPreds m train)
    testR2 := r2Score (test.map Row.led) (clippedPreds m test) }

/-- The external inputs of one `train_model.py` run: whether the CSV file
exists, its column names, its rows, and whether the artifact write succeeds. -/
structure PipelineInput where
  fileExists : Bool
  cols : List String
  raws : List RawRow
  saveOk : Bool

/-- A successful run's outcome: the persisted model and the (purely
observational) evaluation metrics. -/
structure PipelineOutput where
  savedModel : RegModel
  metrics : Metrics

/-- The whole `train_model.py` script, parameterised over the 80/20 shuffling
`split` (`train_test_split`, fixed seed) and the ensemble fitting procedure
`fit` (`RandomForestRegressor(...).fit`).  Mirrors the script's order:
load, schema guard, clean, validate, abort below 50 rows, outlier stage,
split, fit, evaluate, save (aborting if the write fails). -/
def pipeline (split : List Row → List Row × List Row)
    (fit : List Row → RegModel) (inp : PipelineInput) :
    Except ExitReason PipelineOutput :=
  match loadStage inp.fileExists inp.cols with
  | .error e => .error e
  | .ok _ =>
    let df := validateRows (cleanRows inp.raws)
    if df.length < 50 then .error .insufficientSamples
    else
      let df := outlierStage df
      let m := fit (split df).1
      let metrics := evalMetrics m (split df).1 (split df).2
      if inp.saveOk then .ok ⟨m, metrics⟩ else .error .saveFailed

/-- Discriminates the abort of the 50-row check among a run's outcomes. -/
def insufficientAbort : Except ExitReason PipelineOutput → Bool
  | .error .insufficientSamples => true
  | _ => false

/-- A synthetic table of `n` distinct all-valid raw rows. -/
def syntheticRows (n : ℕ) : List RawRow :=
  (List.range n).map fun i => ⟨some i, some 0, some 0⟩

/-- A degenerate stand-in for `train_test_split`. -/
def splitAll (df : List Row) : List Row × List Row := (df, [])

/-- A degenerate stand-in for the ensemble fit: the constant-zero regressor. -/
def fitZero (_ : List Row) : RegModel := fun _ _ => 0

/-! ## `app.py`: the Flask prediction service -/

/-- The served regressor: `model.predict` may itself raise (e.g. a malformed
artifact), so its result is `Except`. -/
def ServedModel : Type := ℚ → ℚ → Except String ℚ

/-- What the artifact path holds: no file, a file `joblib.load` fails on,
or a file that deserialises to a model. -/
inductive Disk where
  | absent
  | corrupt (msg : String)
  | good (m : ServedModel)

/-- `os.path.exists(MODEL_PATH)`. -/
def Disk.fileExists : Disk → Bool
  | .absent => false
  | .corrupt _ => true
  | .good _ => true

/-- Whether `load_model()` would succeed against this disk state. -/
def Disk.loadable : Disk → Bool
  | .good _ => true
  | _ => false

/-- The service's cached global `model` (`None` or a loaded object). -/
def ServiceState : Type := Option ServedModel

/-- `load_model()` (`app.py` lines 20–33): returns whether the load
succeeded and the new value of the global `model` (untouched when the file
is absent, reset to `None` when deserialisation raises). -/
def loadModel (st : ServiceState) (disk : Disk) : Bool × ServiceState :=
  match disk with
  | .absent => (false, st)
  | .corrupt _ => (false, none)
  | .good m => (true, some m)

/-- One field of the JSON request body: either a value `float()` accepts
(numbers, numeric strings, booleans — all modelled by the rational they
coerce to) or one it raises on. -/
inductive JVal where
  | num (q : ℚ)
  | bad (msg : String)

/-- `float(x)`. -/
def pyFloat : JVal → Except String ℚ
  | .num q => .ok q
  | .bad msg => .error msg

/-- A parsed JSON object body; `none` fields are absent keys. -/
structure PredictReq where
  ldr : Option JVal
  motion : Option JVal

/-- A response body: the prediction object `{"led": n}` or an error object
`{"error": msg}`. -/
inductive Body where
  | led (n : ℤ)
  | err (msg : String)
deriving DecidableEq

/-- An HTTP response: status code and JSON body. -/
def Resp : Type := ℕ × Body

/-- The `try:` block of `predict` (`app.py` lines 62–77) run with model `m`:
`request.get_json()` (which may raise, the `.error` case of `req`), the two
`float(data.get(key, 0))` coercions, `model.predict`, then truncation and
clamping.  Any exception is caught and becomes `500 {"error": str(e)}`. -/
def processRequest (m : ServedModel) (req : Except String PredictReq) : Resp :=
  match req with
  | .error e => (500, .err e)
  | .ok r =>
    match pyFloat (r.ldr.getD (.num 0)) with
    | .error e => (500, .err e)
    | .ok l =>
      match pyFloat (r.motion.getD (.num 0)) with
      | .error e => (500, .err e)
      | .ok mo =>
        match m l mo with
        | .error e => (500, .err e)
        | .ok q => (200, .led (clampInt (pyInt q)))

/-- `POST /predict` (`app.py` lines 53–77).  Returns the response, the new
cached-model state, and whether `load_model` was invoked during the request. -/
def predictHandler (st : ServiceState) (disk : Disk)
    (req : Except String PredictReq) : Resp × ServiceState × Bool :=
  match st with
  | some m => (processRequest m req, some m, false)
  | none =>
    match disk with
    | .good m => (processRequest m req, some m, true)
    | .corrupt _ => ((404, .err "Model not available"), none, true)
    | .absent => ((404, .err "Model not available"), none, true)

/-- `GET /status` (`app.py` lines 39–47).  Returns status code and plain-text
body, the new cached-model state, and whether `load_model` was invoked.
Note the source returns `"ready", 200` whenever the file exists, without
consulting `load_model`'s result. -/
def statusHandler (st : ServiceState) (disk : Disk) :
    (ℕ × String) × ServiceState × Bool :=
  if disk.fileExists then
    match st with
    | none => ((200, "ready"), (loadModel none disk).2, true)
    | some m => ((200, "ready"), some m, false)
  else ((404, "not_ready"), st, false)

/-! ## Theorems -/

/-- The three successive validation masks compose into one filter by the
conjunction of the three constraints. -/
theorem validateRows_eq_filter (df : List Row) :
    validateRows df = df.filter fun r => decide (RowValid r) := by
  unfold validateRows
  rw [List.filter_filter, List.filter_filter]
  apply List.filter_congr
  intro r _
  rw [Bool.eq_iff_iff]
  simp only [RowValid, Bool.and_eq_true, decide_eq_true_eq]
  tauto

/-- C1: every row surviving the validation stage satisfies
`0 ≤ ldr ≤ 4095`, `motion ∈ {0, 1}` (exact membership) and
`0 ≤ led ≤ 255`; the stage is exactly the filter by these three
constraints (violating rows dropped, the rest passed through verbatim and
in order), so surviving rows are a sublist of the input — dropped, never
clamped. -/
theorem validation_stage_range_invariant (df : List Row) :
    ((validateRows df).all fun r =>
        decide ((0 ≤ r.ldr ∧ r.ldr ≤ 4095) ∧ (r.motion = 0 ∨ r.motion = 1) ∧
          (0 ≤ r.led ∧ r.led ≤ 255))) = true ∧
    validateRows df = (df.filter fun r => decide (RowValid r)) ∧
    (validateRows df).Sublist df := by
  refine ⟨?_, validateRows_eq_filter df, ?_⟩
  · rw [validateRows_eq_filter df, List.all_eq_true]
    intro r hr
    have h : RowValid r := of_decide_eq_true (List.mem_filter.mp hr).2
    exact decide_eq_true h
  · rw [validateRows_eq_filter df]
    exact List.filter_sublist df

/-- C6: the clamp to `[0, 255]` — `np.clip(·, 0, 255)` in the evaluation
stage and `max(0, min(255, ·))` in the service — is the identity on values
already in `[0, 255]`, is monotonic, and always lands in `[0, 255]`. -/
theorem clamp_idempotent_monotone_bounded :
    (∀ q : ℚ, 0 ≤ q → q ≤ 255 → clip255 q = q) ∧
    (∀ a b : ℚ, a ≤ b → clip255 a ≤ clip255 b) ∧
    (∀ q : ℚ, 0 ≤ clip255 q ∧ clip255 q ≤ 255) ∧
    (∀ n : ℤ, 0 ≤ n → n ≤ 255 → clampInt n = n) ∧
    (∀ a b : ℤ, a ≤ b → clampInt a ≤ clampInt b) ∧
    (∀ n : ℤ, 0 ≤ clampInt n ∧ clampInt n ≤ 255) := by
  refine ⟨fun q h0 h255 => ?_, fun a b hab => ?_, fun q => ⟨?_, ?_⟩,
    fun n h0 h255 => ?_, fun a b hab => ?_, fun n => ⟨?_, ?_⟩⟩
  · rw [clip255, min_eq_right h255, max_eq_right h0]
  · exact max_le_max le_rfl (min_le_min le_rfl hab)
  · exact le_max_left 0 _
  · exact max_le (by norm_num) (min_le_left 255 q)
  · rw [clampInt, min_eq_right h255, max_eq_right h0]
  · exact max_le_max le_rfl (min_le_min le_rfl hab)
  · exact le_max_left 0 _
  · exact max_le (by norm_num) (min_le_left 255 n)

/-- Witness for C6 at concrete inputs. -/
theorem clamp_idempotent_monotone_bounded_witness :
    clip255 7 = 7 ∧ clip255 3 ≤ clip255 9 ∧
      (0 ≤ clip255 300 ∧ clip255 300 ≤ 255) ∧
      clampInt 200 = 200 ∧ clampInt (-3) ≤ clampInt 300 ∧
      (0 ≤ clampInt 999 ∧ clampInt 999 ≤ 255) :=
  ⟨clamp_idempotent_monotone_bounded.1 7 (by norm_num) (by norm_num),
   clamp_idempotent_monotone_bounded.2.1 3 9 (by norm_num),
   clamp_idempotent_monotone_bounded.2.2.1 300,
   clamp_idempotent_monotone_bounded.2.2.2.1 200 (by decide) (by decide),
   clamp_idempotent_monotone_bounded.2.2.2.2.1 (-3) 300 (by decide),
   clamp_idempotent_monotone_bounded.2.2.2.2.2 999⟩

/-- C10: once the cached `model` global is non-`None`, neither `GET /status`
nor `POST /predict` invokes `load_model` again (third component `false`), the
cached state stays exactly the originally loaded object whatever the artifact
file on disk now holds, and every prediction is served by that original
object. -/
theorem loaded_state_absorbing (m : ServedModel) (disk : Disk)
    (req : Except String PredictReq) :
    (statusHandler (some m) disk).2 = (some m, false) ∧
    (predictHandler (some m) disk req).2 = (some m, false) ∧
    (predictHandler (some m) disk req).1 = processRequest m req := by
  refine ⟨?_, rfl, rfl⟩
  unfold statusHandler
  cases disk <;> rfl

/-- C4, counterexample: with no model cached and a corrupt artifact on disk
(`os.path.exists` true, `joblib.load` raising), `GET /status` answers
`200 "ready"` — not the `404 "not_ready"` the claim requires when
deserialization fails — because the source returns `"ready", 200` whenever
the file exists, ignoring `load_model`'s result. -/
theorem status_ready_despite_corrupt_artifact :
    (statusHandler none (Disk.corrupt "invalid load key")).1 = (200, "ready") ∧
    ((200 : ℕ), "ready") ≠ ((404 : ℕ), "not_ready") :=
  ⟨rfl, by decide⟩

/-- C4, amended: `GET /status` answers `200 "ready"` exactly when the
artifact file exists — whether or not it deserializes (a load is attempted
as a side effect when the cache is empty, but its outcome does not affect
the response) — and `404 "not_ready"` exactly when the file is absent. -/
theorem status_reflects_file_existence_only (st : ServiceState) (disk : Disk) :
    ((statusHandler st disk).1 = (200, "ready") ↔ disk.fileExists = true) ∧
    ((statusHandler st disk).1 = (404, "not_ready") ↔ disk.fileExists = false) := by
  cases disk <;> cases st <;>
    simp [statusHandler, Disk.fileExists, loadModel]

/-- `loadStage` with the file absent. -/
theorem loadStage_absent (cols : List String) :
    loadStage false cols = .error .fileNotFound := rfl

/-- `loadStage` with the file present and a required column missing. -/
theorem loadStage_missing (cols : List String)
    (h : (missingCols (dropTsCols cols)).isEmpty = false) :
    loadStage true cols = .error .missingColumns := by
  unfold loadStage
  rw [if_neg (by simp), if_pos]
  simpa [List.isEmpty_iff] using h

/-- `loadStage` with the file present and all required columns present. -/
theorem loadStage_ok (cols : List String)
    (h : (missingCols (dropTsCols cols)).isEmpty = true) :
    loadStage true cols = .ok (dropTsCols cols) := by
  unfold loadStage
  rw [if_neg (by simp), if_neg]
  simpa [List.isEmpty_iff] using h

/-- When the load/schema stage fails, the whole run stops with its error. -/
theorem pipeline_error_load (split : List Row → List Row × List Row)
    (fit : List Row → RegModel) (inp : PipelineInput) (e : ExitReason)
    (h : loadStage inp.fileExists inp.cols = .error e) :
    pipeline split fit inp = .error e := by
  unfold pipeline
  rw [h]

/-- When the load/schema stage passes, the run reduces to the row-count
check followed by the fit/evaluate/save tail. -/
theorem pipeline_load_ok (split : List Row → List Row × List Row)
    (fit : List Row → RegModel) (inp : PipelineInput) (c : List String)
    (h : loadStage inp.fileExists inp.cols = .ok c) :
    pipeline split fit inp =
      if (validateRows (cleanRows inp.raws)).length < 50 then
        .error .insufficientSamples
      else
        let df := outlierStage (validateRows (cleanRows inp.raws))
        let m := fit (split df).1
        if inp.saveOk then .ok ⟨m, evalMetrics m (split df).1 (split df).2⟩
        else .error .saveFailed := by
  unfold pipeline
  rw [h]

/-- C7: the loader exits with a diagnostic exactly when the input file is
absent (`fileNotFound`) or, after dropping the `ts`/`Unnamed: 0` columns,
some required column among `ldr`, `motion`, `led` is missing
(`missingColumns`); and either error is fatal for the whole run — the
pipeline stops with that same error, with no retry and no partial
recovery. -/
theorem loader_fails_fast_on_missing_inputs (cols : List String)
    (split : List Row → List Row × List Row) (fit : List Row → RegModel)
    (raws : List RawRow) (saveOk : Bool) :
    loadStage false cols = .error .fileNotFound ∧
    (loadStage true cols = .error .missingColumns ↔
      (missingCols (dropTsCols cols)).isEmpty = false) ∧
    ((loadStage true cols).isOk = true ↔
      (missingCols (dropTsCols cols)).isEmpty = true) ∧
    pipeline split fit ⟨false, cols, raws, saveOk⟩ = .error .fileNotFound ∧
    (pipeline split fit ⟨true, cols, raws, saveOk⟩ = .error .missingColumns ↔
      (missingCols (dropTsCols cols)).isEmpty = false) := by
  cases h : (missingCols (dropTsCols cols)).isEmpty
  · refine ⟨rfl, by simp [loadStage_missing cols h],
      by simp [loadStage_missing cols h, Except.isOk, Except.toBool], ?_, ?_⟩
    · exact pipeline_error_load split fit _ _ (loadStage_absent cols)
    · rw [pipeline_error_load split fit _ _ (loadStage_missing cols h)]
      simp
  · refine ⟨rfl, by simp [loadStage_ok cols h],
      by simp [loadStage_ok cols h, Except.isOk, Except.toBool], ?_, ?_⟩
    · exact pipeline_error_load split fit _ _ (loadStage_absent cols)
    · rw [pipeline_load_ok split fit _ _ (loadStage_ok cols h)]
      constructor
      · intro hcontra
        split at hcontra
        · simp at hcontra
        · split at hcontra <;> simp at hcontra
      · intro hcontra
        cases hcontra

/-- Witness for C7: an absent file aborts; present file with columns
`["ts", "ldr", "led"]` (no `motion`) aborts with `missingColumns`; the full
schema passes the guard. -/
theorem loader_fails_fast_witness :
    loadStage false ["ldr", "motion", "led"] = .error .fileNotFound ∧
    loadStage true ["ts", "ldr", "led"] = .error .missingColumns ∧
    (loadStage true ["ts", "ldr", "motion", "led"]).isOk = true :=
  ⟨(loader_fails_fast_on_missing_inputs ["ldr", "motion", "led"]
      splitAll fitZero [] true).1,
   ((loader_fails_fast_on_missing_inputs ["ts", "ldr", "led"]
      splitAll fitZero [] true).2.1).mpr (by decide),
   ((loader_fails_fast_on_missing_inputs ["ts", "ldr", "motion", "led"]
      splitAll fitZero [] true).2.2.1).mpr (by decide)⟩

/-- C9: when a prediction succeeds, the returned `led` is the raw model
output truncated toward zero by Python's `int()` and then clamped —
`max(0, min(255, int(pred)))` — so the rounding mode is truncation: the raw
prediction `200.9` yields `200`, not `201`. -/
theorem predict_truncates_before_clamping (m : ServedModel) (r : PredictReq)
    (l mo q : ℚ)
    (hl : pyFloat (r.ldr.getD (.num 0)) = .ok l)
    (hm : pyFloat (r.motion.getD (.num 0)) = .ok mo)
    (hq : m l mo = .ok q) :
    processRequest m (.ok r) = (200, .led (max 0 (min 255 (pyInt q)))) ∧
    clampInt (pyInt (2009 / 10)) = 200 ∧ pyInt (2009 / 10) ≠ 201 := by
  have htrunc : pyInt (2009 / 10) = 200 := by
    rw [pyInt, if_pos (by norm_num)]
    norm_num
  refine ⟨?_, by rw [htrunc]; rfl, by rw [htrunc]; decide⟩
  simp [processRequest, hl, hm, hq, clampInt]

/-- Witness for C9: a model whose raw output is `200.9` produces
`{"led": 200}` through the endpoint's processing path. -/
theorem predict_truncation_witness :
    processRequest (fun _ _ => .ok (2009 / 10))
      (.ok ⟨some (.num 100), none⟩) = (200, .led 200) := by
  have h := predict_truncates_before_clamping (fun _ _ => .ok (2009 / 10))
    ⟨some (.num 100), none⟩ 100 0 (2009 / 10) rfl rfl rfl
  have h200 : max 0 (min 255 (pyInt (2009 / 10))) = 200 := h.2.1
  rw [h.1, h200]

/-- The clamped integer always lies in `[0, 255]`. -/
theorem clampInt_mem (n : ℤ) : 0 ≤ clampInt n ∧ clampInt n ≤ 255 :=
  ⟨le_max_left 0 _, max_le (by norm_num) (min_le_left 255 n)⟩

/-- The `try:` block of `predict` only ever produces a `200 {"led": n}` with
`n ∈ [0, 255]` or a `500 {"error": e}`. -/
theorem processRequest_shapes (m : ServedModel) (req : Except String PredictReq) :
    (∃ n, 0 ≤ n ∧ n ≤ 255 ∧ processRequest m req = (200, .led n)) ∨
    ∃ e, processRequest m req = (500, .err e) := by
  rcases req with e | r
  · exact Or.inr ⟨e, rfl⟩
  rcases hl : pyFloat (r.ldr.getD (.num 0)) with e | l
  · exact Or.inr ⟨e, by simp [processRequest, hl]⟩
  rcases hm : pyFloat (r.motion.getD (.num 0)) with e | mo
  · exact Or.inr ⟨e, by simp [processRequest, hl, hm]⟩
  rcases hq : m l mo with e | q
  · exact Or.inr ⟨e, by simp [processRequest, hl, hm, hq]⟩
  exact Or.inl ⟨clampInt (pyInt q), (clampInt_mem _).1, (clampInt_mem _).2,
    by simp [processRequest, hl, hm, hq]⟩

/-- C5: the `POST /predict` contract.  With a model available and a JSON
object whose fields coerce, it answers `200 {"led": n}` with an integer
`n ∈ [0, 255]`; an absent field defaults to `0`; with no cached model and no
loadable artifact it answers `404 {"error": "Model not available"}`; an
exception at any processing step (`get_json`, either `float(...)`, or
`model.predict`) is caught and becomes `500 {"error": e}`; and every request
ends in one of these three response shapes — the process never crashes. -/
theorem predict_endpoint_contract (st : ServiceState) (disk : Disk)
    (req : Except String PredictReq) (m : ServedModel) (r : PredictReq)
    (l mo q : ℚ) :
    (st = some m → req = .ok r → pyFloat (r.ldr.getD (.num 0)) = .ok l →
      pyFloat (r.motion.getD (.num 0)) = .ok mo → m l mo = .ok q →
      (predictHandler st disk req).1 = (200, .led (clampInt (pyInt q))) ∧
        0 ≤ clampInt (pyInt q) ∧ clampInt (pyInt q) ≤ 255) ∧
    pyFloat ((none : Option JVal).getD (.num 0)) = .ok 0 ∧
    (st = none → disk.loadable = false →
      (predictHandler st disk req).1 = (404, .err "Model not available")) ∧
    (∀ e, st = some m → req = .error e →
      (predictHandler st disk req).1 = (500, .err e)) ∧
    (∀ e, st = some m → req = .ok r → pyFloat (r.ldr.getD (.num 0)) = .error e →
      (predictHandler st disk req).1 = (500, .err e)) ∧
    (∀ e, st = some m → req = .ok r → pyFloat (r.ldr.getD (.num 0)) = .ok l →
      pyFloat (r.motion.getD (.num 0)) = .ok mo → m l mo = .error e →
      (predictHandler st disk req).1 = (500, .err e)) ∧
    ((∃ n, 0 ≤ n ∧ n ≤ 255 ∧ (predictHandler st disk req).1 = (200, .led n)) ∨
      (predictHandler st disk req).1 = (404, .err "Model not available") ∨
      ∃ e, (predictHandler st disk req).1 = (500, .err e)) := by
  refine ⟨?_, rfl, ?_, ?_, ?_, ?_, ?_⟩
  · rintro rfl rfl hl hm hq
    exact ⟨by simp [predictHandler, processRequest, hl, hm, hq],
      (clampInt_mem _).1, (clampInt_mem _).2⟩
  · rintro rfl hload
    cases disk with
    | absent => rfl
    | corrupt _ => rfl
    | good _ => simp [Disk.loadable] at hload
  · rintro e rfl rfl
    rfl
  · rintro e rfl rfl hl
    simp [predictHandler, processRequest, hl]
  · rintro e rfl rfl hl hm hq
    simp [predictHandler, processRequest, hl, hm, hq]
  · cases st with
    | some m' =>
      have h := processRequest_shapes m' req
      simpa [predictHandler] using h.imp id Or.inr
    | none =>
      cases disk with
      | absent => exact Or.inr (Or.inl rfl)
      | corrupt _ => exact Or.inr (Or.inl rfl)
      | good m' =>
        have h := processRequest_shapes m' req
        simpa [predictHandler] using h.imp id Or.inr

/-- Witness for C5: a loaded model answering `77.5` yields `200 {"led": 77}`
on `{"ldr": 100}` (missing `motion` defaulting to `0`); with nothing on
disk and nothing cached, the endpoint answers the 404 payload; a raising
model is converted to a 500 payload. -/
theorem predict_endpoint_contract_witness :
    (predictHandler (some fun _ _ => .ok (155 / 2)) Disk.absent
        (.ok ⟨some (.num 100), none⟩)).1 = (200, .led 77) ∧
    (predictHandler none Disk.absent (.ok ⟨some (.num 100), none⟩)).1 =
      (404, .err "Model not available") ∧
    (predictHandler (some fun _ _ => .error "shape mismatch") Disk.absent
        (.ok ⟨some (.num 100), none⟩)).1 = (500, .err "shape mismatch") := by
  have h77 : clampInt (pyInt (155 / 2)) = 77 := by
    have : pyInt (155 / 2) = 77 := by
      rw [pyInt, if_pos (by norm_num)]
      norm_num
    rw [this]
    rfl
  refine ⟨?_, ?_, ?_⟩
  · have h := (predict_endpoint_contract (some fun _ _ => .ok (155 / 2))
      Disk.absent (.ok ⟨some (.num 100), none⟩) (fun _ _ => .ok (155 / 2))
      ⟨some (.num 100), none⟩ 100 0 (155 / 2)).1 rfl rfl rfl rfl rfl
    rw [h.1, h77]
  · exact (predict_endpoint_contract none Disk.absent
      (.ok ⟨some (.num 100), none⟩) (fun _ _ => .ok 0)
      ⟨some (.num 100), none⟩ 100 0 0).2.2.1 rfl rfl
  · exact (predict_endpoint_contract (some fun _ _ => .error "shape mismatch")
      Disk.absent (.ok ⟨some (.num 100), none⟩)
      (fun _ _ => .error "shape mismatch") ⟨some (.num 100), none⟩ 100 0
      0).2.2.2.2.2.1 "shape mismatch" rfl rfl rfl rfl rfl

/-- The load/schema stage can only fail with `fileNotFound` or
`missingColumns`. -/
theorem loadStage_error_cases (fe : Bool) (cols : List String) (e : ExitReason)
    (h : loadStage fe cols = .error e) :
    e = .fileNotFound ∨ e = .missingColumns := by
  unfold loadStage at h
  split at h
  · injection h with h'
    exact Or.inl h'.symm
  · split at h
    · injection h with h'
      exact Or.inr h'.symm
    · cases h

set_option maxRecDepth 100000

/-- C2: the run aborts with the `insufficientSamples` diagnostic exactly
when the load/schema stage passed and fewer than 50 rows survive validation;
the abort happens before the split and fit stages (its occurrence does not
depend on them); and concretely, a table left with 49 valid rows aborts
while one with 50 proceeds past the check. -/
theorem abort_on_insufficient_samples
    (split split' : List Row → List Row × List Row)
    (fit fit' : List Row → RegModel) (inp : PipelineInput) :
    (insufficientAbort (pipeline split fit inp) = true ↔
      (loadStage inp.fileExists inp.cols).isOk = true ∧
        (validateRows (cleanRows inp.raws)).length < 50) ∧
    insufficientAbort (pipeline split fit inp) =
      insufficientAbort (pipeline split' fit' inp) ∧
    insufficientAbort (pipeline splitAll fitZero
      ⟨true, requiredCols, syntheticRows 49, true⟩) = true ∧
    insufficientAbort (pipeline splitAll fitZero
      ⟨true, requiredCols, syntheticRows 50, true⟩) = false := by
  have key : ∀ (sp : List Row → List Row × List Row) (f : List Row → RegModel),
      insufficientAbort (pipeline sp f inp) = true ↔
        (loadStage inp.fileExists inp.cols).isOk = true ∧
          (validateRows (cleanRows inp.raws)).length < 50 := by
    intro sp f
    rcases h : loadStage inp.fileExists inp.cols with e | c
    · rw [pipeline_error_load sp f inp e h]
      rcases loadStage_error_cases _ _ _ h with rfl | rfl <;>
        simp [insufficientAbort, Except.isOk, Except.toBool]
    · rw [pipeline_load_ok sp f inp c h]
      by_cases hlen : (validateRows (cleanRows inp.raws)).length < 50
      · simp [hlen, insufficientAbort, Except.isOk, Except.toBool]
      · rw [if_neg hlen]
        cases hs : inp.saveOk <;>
          simp [insufficientAbort, Except.isOk, Except.toBool, hlen]
  refine ⟨key split fit, ?_, ?_, ?_⟩
  · rw [Bool.eq_iff_iff, key split fit, key split' fit']
  · rfl
  · rfl

/-- C8: evaluation metrics never gate persistence.  A run succeeds — the
fitted model is serialized — exactly when the file exists, the schema guard
passes, at least 50 rows survive validation, and the artifact write
succeeds; and whenever it succeeds, the persisted object is exactly the
model fitted on the training split, for every fitting procedure and hence
regardless of the MAE, R² and feature importances the evaluation stage
computes from it. -/
theorem evaluation_never_gates_persistence
    (split : List Row → List Row × List Row) (fit : List Row → RegModel)
    (inp : PipelineInput) :
    ((pipeline split fit inp).isOk = true ↔
      inp.fileExists = true ∧
        (missingCols (dropTsCols inp.cols)).isEmpty = true ∧
        50 ≤ (validateRows (cleanRows inp.raws)).length ∧
        inp.saveOk = true) ∧
    (pipeline split fit inp).toOption.map PipelineOutput.savedModel =
      (if (pipeline split fit inp).isOk = true
        then some (fit (split (outlierStage
          (validateRows (cleanRows inp.raws)))).1)
        else none) := by
  cases hfe : inp.fileExists
  · have h := pipeline_error_load split fit inp .fileNotFound
      (by rw [hfe]; exact loadStage_absent inp.cols)
    rw [h]
    simp [Except.isOk, Except.toBool, Except.toOption]
  · cases hmiss : (missingCols (dropTsCols inp.cols)).isEmpty
    · have h := pipeline_error_load split fit inp .missingColumns
        (by rw [hfe]; exact loadStage_missing inp.cols hmiss)
      rw [h]
      simp [Except.isOk, Except.toBool, Except.toOption]
    · have h := pipeline_load_ok split fit inp (dropTsCols inp.cols)
        (by rw [hfe]; exact loadStage_ok inp.cols hmiss)
      rw [h]
      by_cases hlen : (validateRows (cleanRows inp.raws)).length < 50
      · rw [if_pos hlen]
        constructor
        · simp only [Except.isOk, Except.toBool]
          constructor
          · intro hcontra
            cases hcontra
          · intro hcontra
            omega
        · simp [Except.isOk, Except.toBool, Except.toOption]
      · rw [if_neg hlen]
        cases hs : inp.saveOk
        · constructor
          · simp [Except.isOk, Except.toBool]
          · simp [Except.isOk, Except.toBool, Except.toOption]
        · constructor
          · simp [Except.isOk, Except.toBool]
            omega
          · simp [Except.isOk, Except.toBool, Except.toOption]

/-- C3: with `low = Q1 − 1.5·IQR` and `high = Q3 + 1.5·IQR` computed from
the `led` column's quartiles, the outlier stage removes exactly the rows
with `led` strictly outside `[low, high]` precisely when at least one such
row exists and their count is strictly below 10% of the row count
(`10·#outliers < #rows`, the exact-arithmetic reading of
`len(outliers) < len(df) * 0.1`); otherwise the frame passes through
completely unchanged.  The second equation identifies the candidate
outliers as exactly the complement of the rows the removal branch keeps. -/
theorem outlier_stage_guarded_removal (df : List Row) :
    outlierStage df =
      (if 0 < (ledOutliers df).length ∧
          10 * (ledOutliers df).length < df.length
        then df.filter fun r => decide (ledLow df ≤ r.led ∧ r.led ≤ ledHigh df)
        else df) ∧
    ledOutliers df =
      df.filter fun r => !decide (ledLow df ≤ r.led ∧ r.led ≤ ledHigh df) := by
  constructor
  · unfold outlierStage
    apply if_congr _ rfl rfl
    apply and_congr_right
    intro _
    have hcast : (((ledOutliers df).length : ℚ) < (df.length : ℚ) * (1 / 10)) ↔
        ((10 * (ledOutliers df).length : ℕ) : ℚ) < ((df.length : ℕ) : ℚ) := by
      push_cast
      constructor <;> intro <;> linarith
    rw [hcast, Nat.cast_lt]
  · unfold ledOutliers
    apply List.filter_congr
    intro r _
    rw [Bool.eq_iff_iff]
    simp only [Bool.not_eq_true', decide_eq_true_eq, decide_eq_false_iff_not]
    rw [not_and_or, not_le, not_le]

end SmartLed
